import Mathlib

/-!
Verification of the resource-handler abstraction layer of lmctfy
(src/lmctfy/resource_handler.h).

The only source file of the repository is the abstract interface header:
every operation of `ResourceHandlerFactory` and `ResourceHandler` is a pure
virtual method, so the behavior that decides the spec's claims lives in
concrete implementations that are not part of the repository snapshot.
Following the header's documented contract and the specification, the
operations are modelled here as pure state transformers: a handler is a
record of its fixed identity (`container_name`, `type`), its fixed backend
configuration, and its mutable live state; each operation returns a status
(`Except ErrorCode`) together with the successor state.
-/

namespace Lmctfy

/-- Resource types supported by the lmctfy implementation
(enum `ResourceType` in src/lmctfy/resource_handler.h). -/
inductive ResourceType where
  | RESOURCE_CPU
  | RESOURCE_MEMORY
  | RESOURCE_DISKIO
  | RESOURCE_NETWORK
  | RESOURCE_MONITORING
  | RESOURCE_GLOBAL
  deriving DecidableEq, Repr

/-- Modelled from the spec: the error kinds of the structured Result type
(spec section 7). The concrete `util::Status` error space is declared in
util/task/status.h, which is not under src/. `OK` is represented by
`Except.ok`, so this enumeration carries only the failure kinds. -/
inductive ErrorCode where
  | INVALID_ARGUMENT
  | NOT_FOUND
  | ALREADY_EXISTS
  | FAILED_PRECONDITION
  | RESOURCE_EXHAUSTED
  | INTERNAL
  deriving DecidableEq, Repr

/-- Update policies (`Container::UpdatePolicy`): the header documents
`UPDATE_DIFF` (apply only the changes present in the spec) and
`UPDATE_REPLACE` (make the resource mirror the spec). The enum itself is
declared in include/lmctfy.h, which is not under src/. -/
inductive UpdatePolicy where
  | UPDATE_DIFF
  | UPDATE_REPLACE
  deriving DecidableEq, Repr

/-- Modelled from the spec: the stats-detail selector
(`Container::StatsType`, declared in include/lmctfy.h which is not under
src/): cheap summary data versus a full, possibly expensive, pass. -/
inductive StatsType where
  | STATS_SUMMARY
  | STATS_FULL
  deriving DecidableEq, Repr

/-- Modelled from the spec: a `ContainerSpec` is an aggregate configuration
document whose sub-sections each belong to exactly one resource type
(spec section 3); each section is a sparse map from field to optional
value (a field absent from the spec is `none`). The protobuf message is
declared in include/lmctfy.pb.h, which is not under src/. -/
abbrev ContainerSpec := ResourceType → Nat → Option Nat

/-- Modelled from the spec: `ContainerStats` is the structurally analogous
aggregate for observed state, with the same partition rule. -/
abbrev ContainerStats := ResourceType → Nat → Option Nat

/-- Modelled from the spec: an `InitSpec` describes the machine-wide
resource-group hierarchy to bootstrap. The message is declared outside
src/. -/
abbrev InitSpec := List Nat

/-- Modelled from the spec: an `EventSpec` is a subscription request naming
some event kinds; by contract it must describe exactly one event kind per
registration call. The message is declared outside src/. -/
structure EventSpec where
  kinds : List Nat
  deriving DecidableEq, Repr

/-- Modelled from the spec: a `ResourceHandler` instance. The header fixes
`container_name` and `type` at construction; `defaults`, `serviceable` and
`moveResult` are the fixed configuration of the (out-of-src) resource
backend: per-field default values, which event kinds this handler can
service, and the backend outcome of moving a thread id into the control
group (`none` = success). `live`, `moved`, `subs`, `nextId` and
`destroyed` are the mutable state: the live value of each field of this
resource's section, the thread ids moved into the group, the notification
table (id, event kind), the next fresh notification id, and whether
`Destroy` has completed successfully. -/
structure Handler where
  container_name : String
  type : ResourceType
  defaults : Nat → Nat
  serviceable : Nat → Bool
  moveResult : Int → Option ErrorCode
  live : Nat → Nat
  moved : List Int
  subs : List (Nat × Nat)
  nextId : Nat
  destroyed : Bool

/-- Modelled from the spec: `ResourceHandler::Update` (pure virtual in the
header). `UPDATE_DIFF` applies only the fields explicitly present in this
handler's section of the spec, leaving every other live field untouched;
`UPDATE_REPLACE` reconciles live state to mirror the spec exactly,
resetting unmentioned fields to their defaults. A destroyed handler is
terminal, so any call on it fails `FAILED_PRECONDITION`. -/
def Handler.Update (h : Handler) (s : ContainerSpec) (policy : UpdatePolicy) :
    Except ErrorCode Unit × Handler :=
  if h.destroyed then (Except.error ErrorCode.FAILED_PRECONDITION, h)
  else
    match policy with
    | UpdatePolicy.UPDATE_DIFF =>
        (Except.ok (), { h with live := fun f => (s h.type f).getD (h.live f) })
    | UpdatePolicy.UPDATE_REPLACE =>
        (Except.ok (), { h with live := fun f => (s h.type f).getD (h.defaults f) })

/-- Modelled from the spec: `ResourceHandler::Stats` (pure virtual, `const`
in the header): read-only, populates only this handler's partition of the
output aggregate from live state; the detail selector chooses how much
data is gathered but in this model both levels report the live fields. -/
def Handler.Stats (h : Handler) (stype : StatsType) (output : ContainerStats) :
    Except ErrorCode ContainerStats :=
  if h.destroyed then Except.error ErrorCode.FAILED_PRECONDITION
  else
    Except.ok (fun r f =>
      if r = h.type then
        match stype with
        | StatsType.STATS_SUMMARY => some (h.live f)
        | StatsType.STATS_FULL => some (h.live f)
      else output r f)

/-- Modelled from the spec: `ResourceHandler::Spec` (pure virtual, `const`
in the header): read-only, fills this handler's partition of the output
aggregate by querying live state. -/
def Handler.Spec (h : Handler) (output : ContainerSpec) :
    Except ErrorCode ContainerSpec :=
  if h.destroyed then Except.error ErrorCode.FAILED_PRECONDITION
  else Except.ok (fun r f => if r = h.type then some (h.live f) else output r f)

/-- Modelled from the spec: `ResourceHandler::Create` (pure virtual in the
header): one-time configuration of a newly created container from this
handler's section of the spec. -/
def Handler.Create (h : Handler) (s : ContainerSpec) :
    Except ErrorCode Unit × Handler :=
  if h.destroyed then (Except.error ErrorCode.FAILED_PRECONDITION, h)
  else (Except.ok (), { h with live := fun f => (s h.type f).getD (h.defaults f) })

/-- Modelled from the spec: `ResourceHandler::Destroy` (pure virtual in the
header). `backendOk` is the outcome of releasing the underlying OS-level
resource-group state. On success the handler becomes terminal; on failure
it remains in its prior active state and the call may be retried. -/
def Handler.Destroy (h : Handler) (backendOk : Bool) :
    Except ErrorCode Unit × Handler :=
  if h.destroyed then (Except.error ErrorCode.FAILED_PRECONDITION, h)
  else if backendOk then (Except.ok (), { h with destroyed := true })
  else (Except.error ErrorCode.INTERNAL, h)

/-- Modelled from the spec: the iteration inside `ResourceHandler::Enter`:
move each thread id in turn into the control group; on the first id whose
backend move fails, stop and report that error, keeping the ids already
moved (no rollback). `acc` is the list of ids moved so far. -/
def enterMove (mres : Int → Option ErrorCode) :
    List Int → List Int → Except ErrorCode Unit × List Int
  | acc, [] => (Except.ok (), acc)
  | acc, t :: ts =>
      match mres t with
      | some e => (Except.error e, acc)
      | none => enterMove mres (acc ++ [t]) ts

/-- Modelled from the spec: `ResourceHandler::Enter` (pure virtual in the
header): moves the given thread identifiers into this resource's control
group, not atomically across the list. -/
def Handler.Enter (h : Handler) (tids : List Int) :
    Except ErrorCode Unit × Handler :=
  if h.destroyed then (Except.error ErrorCode.FAILED_PRECONDITION, h)
  else
    let r := enterMove h.moveResult h.moved tids
    (r.1, { h with moved := r.2 })

/-- Modelled from the spec: `ResourceHandler::RegisterNotification` (pure
virtual in the header). The event spec must name exactly one distinct
event kind, otherwise the call fails `INVALID_ARGUMENT`; if the handler
cannot service that kind the call fails `NOT_FOUND`; on success a fresh
notification id is issued and the subscription is inserted into the
per-handler table. -/
def Handler.RegisterNotification (h : Handler) (es : EventSpec) :
    Except ErrorCode Nat × Handler :=
  if h.destroyed then (Except.error ErrorCode.FAILED_PRECONDITION, h)
  else
    match es.kinds.dedup with
    | [k] =>
        if h.serviceable k then
          (Except.ok h.nextId,
           { h with subs := h.subs ++ [(h.nextId, k)], nextId := h.nextId + 1 })
        else (Except.error ErrorCode.NOT_FOUND, h)
    | _ => (Except.error ErrorCode.INVALID_ARGUMENT, h)

/-- One operation of the `ResourceHandler` interface, used to quantify over
"every subsequent operation" in the lifecycle claims. -/
inductive Op where
  | update (s : ContainerSpec) (policy : UpdatePolicy)
  | stats (stype : StatsType) (output : ContainerStats)
  | spec (output : ContainerSpec)
  | create (s : ContainerSpec)
  | destroy (backendOk : Bool)
  | enter (tids : List Int)
  | register (es : EventSpec)

/-- Dispatch one interface operation on a handler, returning its status and
the successor handler state (the `const` operations `Stats` and `Spec`
leave the handler unchanged by construction, mirroring their `const`
qualification in the header). -/
def Handler.run (h : Handler) (op : Op) : Except ErrorCode Unit × Handler :=
  match op with
  | Op.update s policy => h.Update s policy
  | Op.stats stype output => ((h.Stats stype output).map (fun _ => ()), h)
  | Op.spec output => ((h.Spec output).map (fun _ => ()), h)
  | Op.create s => h.Create s
  | Op.destroy backendOk => h.Destroy backendOk
  | Op.enter tids => h.Enter tids
  | Op.register es =>
      ((h.RegisterNotification es).1.map (fun _ => ()),
       (h.RegisterNotification es).2)

/-- Modelled from the spec: the per-container configured resource state a
factory can attach to, keyed by absolute container name (first match
wins). -/
def lookupState : List (String × (Nat → Nat)) → String → Option (Nat → Nat)
  | [], _ => none
  | (n, st) :: rest, name => if n = name then some st else lookupState rest name

/-- Modelled from the spec: a `ResourceHandlerFactory` instance (one per
resource type). `type` is fixed at construction (the header stores it in a
private field); `defaults`, `serviceable` and `moveResult` are the backend
configuration handed to the handlers it builds; `configured` is the
per-container resource state of this resource type; `machineInit` and
`mounts` are the machine-wide bootstrap state touched by `InitMachine`. -/
structure Factory where
  type : ResourceType
  defaults : Nat → Nat
  serviceable : Nat → Bool
  moveResult : Int → Option ErrorCode
  configured : List (String × (Nat → Nat))
  machineInit : Bool
  mounts : List Nat

/-- Build a handler of this factory's resource type for a container: the
constructor `ResourceHandler(container_name, type)` in the header fixes the
identity fields; the rest is this factory's backend configuration and the
given live section state. -/
def Factory.mkHandler (F : Factory) (name : String) (st : Nat → Nat) : Handler :=
  { container_name := name
    type := F.type
    defaults := F.defaults
    serviceable := F.serviceable
    moveResult := F.moveResult
    live := st
    moved := []
    subs := []
    nextId := 0
    destroyed := false }

/-- Modelled from the spec: `ResourceHandlerFactory::Get` (pure virtual in
the header): returns a handler for an existing container's resource state,
or `NOT_FOUND` if this resource type has no configured state for that
container. -/
def Factory.Get (F : Factory) (name : String) : Except ErrorCode Handler :=
  match lookupState F.configured name with
  | some st => Except.ok (F.mkHandler name st)
  | none => Except.error ErrorCode.NOT_FOUND

/-- Modelled from the spec: `ResourceHandlerFactory::Create` (pure virtual
in the header): creates and initializes a new handler from this resource
type's section of the spec, failing `ALREADY_EXISTS` if a handler already
exists for this (container, resource type) pair. -/
def Factory.Create (F : Factory) (name : String) (s : ContainerSpec) :
    Except ErrorCode Handler × Factory :=
  match lookupState F.configured name with
  | some _ => (Except.error ErrorCode.ALREADY_EXISTS, F)
  | none =>
      let st := fun f => (s F.type f).getD (F.defaults f)
      (Except.ok (F.mkHandler name st),
       { F with configured := F.configured ++ [(name, st)] })

/-- Modelled from the spec: `ResourceHandlerFactory::InitMachine` (pure
virtual in the header): one-time machine-wide bootstrap, documented as
idempotent; a second call detects prior initialization and succeeds as a
no-op without re-applying the bootstrap. -/
def Factory.InitMachine (F : Factory) (s : InitSpec) :
    Except ErrorCode Unit × Factory :=
  if F.machineInit then (Except.ok (), F)
  else (Except.ok (), { F with machineInit := true, mounts := s })

/-! Concrete instances used by the witness theorems. -/

/-- A concrete memory handler for the container `/batch/job1`: field defaults
are 0, only event kind 0 is serviceable, and the backend refuses to move
thread id 5 (reporting `NOT_FOUND`) while moving every other id. -/
def sampleHandler : Handler :=
  { container_name := "/batch/job1"
    type := ResourceType.RESOURCE_MEMORY
    defaults := fun _ => 0
    serviceable := fun k => k == 0
    moveResult := fun t => if t == 5 then some ErrorCode.NOT_FOUND else none
    live := fun _ => 0
    moved := []
    subs := []
    nextId := 0
    destroyed := false }

/-- A concrete container spec whose memory section sets field 0 to 512 and
leaves every other field absent. -/
def sampleSpec : ContainerSpec := fun r f =>
  if r = ResourceType.RESOURCE_MEMORY ∧ f = 0 then some 512 else none

/-- An empty output aggregate to populate. -/
def emptyOut : ContainerSpec := fun _ _ => none

/-- A concrete memory factory that already has configured state for the
container `/batch/job1` and has not yet run its machine bootstrap. -/
def sampleFactory : Factory :=
  { type := ResourceType.RESOURCE_MEMORY
    defaults := fun _ => 0
    serviceable := fun k => k == 0
    moveResult := fun _ => none
    configured := [("/batch/job1", fun _ => 0)]
    machineInit := false
    mounts := [] }

/-! Claim theorems. -/

/-- C1: for every handler and every `ContainerSpec`, applying
`Update(spec, UPDATE_REPLACE)` twice in succession with the identical spec
is idempotent: both applications succeed and the observable live state, as
reported by `Spec()` into any output aggregate, after the second
application equals the state after the first. -/
theorem update_replace_idempotent (h : Handler) (s : ContainerSpec)
    (out : ContainerSpec) (hd : h.destroyed = false) :
    (h.Update s UpdatePolicy.UPDATE_REPLACE).1 = Except.ok () ∧
    ((h.Update s UpdatePolicy.UPDATE_REPLACE).2.Update s
      UpdatePolicy.UPDATE_REPLACE).1 = Except.ok () ∧
    ((h.Update s UpdatePolicy.UPDATE_REPLACE).2.Update s
      UpdatePolicy.UPDATE_REPLACE).2.Spec out
      = (h.Update s UpdatePolicy.UPDATE_REPLACE).2.Spec out := by
  simp [Handler.Update, Handler.Spec, hd]

/-- Witness for C1 at the concrete memory handler and spec. -/
theorem update_replace_idempotent_witness :
    sampleHandler.destroyed = false ∧
    ((sampleHandler.Update sampleSpec UpdatePolicy.UPDATE_REPLACE).1
        = Except.ok () ∧
      ((sampleHandler.Update sampleSpec UpdatePolicy.UPDATE_REPLACE).2.Update
        sampleSpec UpdatePolicy.UPDATE_REPLACE).1 = Except.ok () ∧
      ((sampleHandler.Update sampleSpec UpdatePolicy.UPDATE_REPLACE).2.Update
        sampleSpec UpdatePolicy.UPDATE_REPLACE).2.Spec emptyOut
        = (sampleHandler.Update sampleSpec
            UpdatePolicy.UPDATE_REPLACE).2.Spec emptyOut) :=
  ⟨rfl, update_replace_idempotent sampleHandler sampleSpec emptyOut rfl⟩

/-- C2: for every handler and spec, `Update(spec, UPDATE_DIFF)` leaves every
live field whose value is absent from the spec unchanged: the `Spec()`
output at any (resource type, field) coordinate absent from the supplied
spec is identical before and after the update. -/
theorem update_diff_frame (h : Handler) (s : ContainerSpec) (out : ContainerSpec)
    (r : ResourceType) (f : Nat) (hd : h.destroyed = false)
    (habs : s r f = none) :
    (h.Update s UpdatePolicy.UPDATE_DIFF).1 = Except.ok () ∧
    ((h.Update s UpdatePolicy.UPDATE_DIFF).2.Spec out).map (fun o => o r f)
      = (h.Spec out).map (fun o => o r f) := by
  refine ⟨by simp [Handler.Update, hd], ?_⟩
  by_cases hr : r = h.type
  · subst hr
    simp [Handler.Update, Handler.Spec, Except.map, hd, habs]
  · simp [Handler.Update, Handler.Spec, Except.map, hd, hr]

/-- Witness for C2: field 1 of the memory section is absent from
`sampleSpec`, so the diff update leaves its reported value unchanged. -/
theorem update_diff_frame_witness :
    sampleHandler.destroyed = false ∧
    sampleSpec ResourceType.RESOURCE_MEMORY 1 = none ∧
    ((sampleHandler.Update sampleSpec UpdatePolicy.UPDATE_DIFF).1
        = Except.ok () ∧
      ((sampleHandler.Update sampleSpec UpdatePolicy.UPDATE_DIFF).2.Spec
          emptyOut).map (fun o => o ResourceType.RESOURCE_MEMORY 1)
        = (sampleHandler.Spec emptyOut).map
            (fun o => o ResourceType.RESOURCE_MEMORY 1)) :=
  ⟨rfl, by simp [sampleSpec],
    update_diff_frame sampleHandler sampleSpec emptyOut
      ResourceType.RESOURCE_MEMORY 1 rfl (by simp [sampleSpec])⟩

/-- C3: for every handler, a successful `Destroy()` is terminal: every
subsequent operation on the handler fails `FAILED_PRECONDITION` and leaves
it unchanged; a failed `Destroy()` leaves the handler in its prior active
state and may be retried successfully. -/
theorem destroy_terminal (h : Handler) (op : Op) (hd : h.destroyed = false) :
    ((h.Destroy true).1 = Except.ok () ∧
      (h.Destroy true).2.destroyed = true ∧
      ((h.Destroy true).2.run op).1
        = Except.error ErrorCode.FAILED_PRECONDITION ∧
      ((h.Destroy true).2.run op).2 = (h.Destroy true).2) ∧
    ((h.Destroy false).1 = Except.error ErrorCode.INTERNAL ∧
      (h.Destroy false).2 = h ∧
      ((h.Destroy false).2.Destroy true).1 = Except.ok ()) := by
  cases op <;>
    simp [Handler.run, Handler.Destroy, Handler.Update, Handler.Stats,
      Handler.Spec, Handler.Create, Handler.Enter,
      Handler.RegisterNotification, Except.map, hd]

/-- Witness for C3 at the concrete memory handler, with `Enter` as the
subsequent operation. -/
theorem destroy_terminal_witness :
    sampleHandler.destroyed = false ∧
    (((sampleHandler.Destroy true).1 = Except.ok () ∧
        (sampleHandler.Destroy true).2.destroyed = true ∧
        ((sampleHandler.Destroy true).2.run (Op.enter [1])).1
          = Except.error ErrorCode.FAILED_PRECONDITION ∧
        ((sampleHandler.Destroy true).2.run (Op.enter [1])).2
          = (sampleHandler.Destroy true).2) ∧
      ((sampleHandler.Destroy false).1 = Except.error ErrorCode.INTERNAL ∧
        (sampleHandler.Destroy false).2 = sampleHandler ∧
        ((sampleHandler.Destroy false).2.Destroy true).1 = Except.ok ())) :=
  ⟨rfl, destroy_terminal sampleHandler (Op.enter [1]) rfl⟩

/-- C4: for every handler, `RegisterNotification` with an `EventSpec`
naming two or more distinct event kinds fails `INVALID_ARGUMENT` and
leaves the subscription table (indeed the whole handler) unchanged; with a
single-kind `EventSpec` the handler cannot service, it fails `NOT_FOUND`,
also creating no subscription. -/
theorem register_notification_errors (h : Handler) (es1 es2 : EventSpec)
    (k : Nat) (hd : h.destroyed = false)
    (hmulti : 2 ≤ es1.kinds.dedup.length)
    (hone : es2.kinds.dedup = [k]) (hserv : h.serviceable k = false) :
    ((h.RegisterNotification es1).1
        = Except.error ErrorCode.INVALID_ARGUMENT ∧
      (h.RegisterNotification es1).2 = h) ∧
    ((h.RegisterNotification es2).1 = Except.error ErrorCode.NOT_FOUND ∧
      (h.RegisterNotification es2).2 = h) := by
  constructor
  · rcases hk : es1.kinds.dedup with _ | ⟨a, _ | ⟨b, rest⟩⟩
    · simp [hk] at hmulti
    · simp [hk] at hmulti
    · simp [Handler.RegisterNotification, hd, hk]
  · simp [Handler.RegisterNotification, hd, hone, hserv]

/-- Witness for C4: the event spec `[1, 2]` names two distinct kinds, and
the single-kind spec `[3]` is not serviceable by the sample handler. -/
theorem register_notification_errors_witness :
    sampleHandler.destroyed = false ∧
    2 ≤ (EventSpec.mk [1, 2]).kinds.dedup.length ∧
    (EventSpec.mk [3]).kinds.dedup = [3] ∧
    sampleHandler.serviceable 3 = false ∧
    (((sampleHandler.RegisterNotification (EventSpec.mk [1, 2])).1
        = Except.error ErrorCode.INVALID_ARGUMENT ∧
      (sampleHandler.RegisterNotification (EventSpec.mk [1, 2])).2
        = sampleHandler) ∧
     ((sampleHandler.RegisterNotification (EventSpec.mk [3])).1
        = Except.error ErrorCode.NOT_FOUND ∧
      (sampleHandler.RegisterNotification (EventSpec.mk [3])).2
        = sampleHandler)) :=
  ⟨rfl, by decide, by decide, rfl,
    register_notification_errors sampleHandler (EventSpec.mk [1, 2])
      (EventSpec.mk [3]) 3 rfl (by decide) (by decide) rfl⟩

/-- C7: for every factory, calling `InitMachine` twice in sequence with the
same (hence equivalent) spec succeeds both times and the second call is a
no-op: the machine-level state after the second call equals the state
after the first, with no bootstrap step re-applied. -/
theorem init_machine_idempotent (F : Factory) (s : InitSpec) :
    (F.InitMachine s).1 = Except.ok () ∧
    ((F.InitMachine s).2.InitMachine s).1 = Except.ok () ∧
    ((F.InitMachine s).2.InitMachine s).2 = (F.InitMachine s).2 := by
  by_cases hm : F.machineInit <;> simp [Factory.InitMachine, hm]

/-- C9: for every handler, `Stats` and `Spec` are read-only: they leave the
handler state unchanged (mirroring their `const` qualification) and each
populates only this handler's own partition of the output aggregate,
reporting every other partition exactly as it was supplied. -/
theorem stats_spec_readonly (h : Handler) (stype : StatsType)
    (outS : ContainerStats) (outC : ContainerSpec) (r : ResourceType)
    (f : Nat) (hd : h.destroyed = false) (hr : r ≠ h.type) :
    (h.Stats stype outS).map (fun o => o r f) = Except.ok (outS r f) ∧
    (h.Spec outC).map (fun o => o r f) = Except.ok (outC r f) ∧
    (h.run (Op.stats stype outS)).2 = h ∧
    (h.run (Op.spec outC)).2 = h := by
  simp [Handler.Stats, Handler.Spec, Handler.run, Except.map, hd, hr]

/-- Witness for C9: the CPU partition of the output is untouched by the
memory handler's `Stats` and `Spec`. -/
theorem stats_spec_readonly_witness :
    sampleHandler.destroyed = false ∧
    ResourceType.RESOURCE_CPU ≠ sampleHandler.type ∧
    ((sampleHandler.Stats StatsType.STATS_SUMMARY emptyOut).map
        (fun o => o ResourceType.RESOURCE_CPU 0)
        = Except.ok (emptyOut ResourceType.RESOURCE_CPU 0) ∧
      (sampleHandler.Spec emptyOut).map
        (fun o => o ResourceType.RESOURCE_CPU 0)
        = Except.ok (emptyOut ResourceType.RESOURCE_CPU 0) ∧
      (sampleHandler.run (Op.stats StatsType.STATS_SUMMARY emptyOut)).2
        = sampleHandler ∧
      (sampleHandler.run (Op.spec emptyOut)).2 = sampleHandler) :=
  ⟨rfl, by decide,
    stats_spec_readonly sampleHandler StatsType.STATS_SUMMARY emptyOut
      emptyOut ResourceType.RESOURCE_CPU 0 rfl (by decide)⟩

/-- C10: for every handler and every interface operation (including failed
and successful `Destroy`), the values reported by `container_name()` and
`type()` after the operation equal the values fixed at construction. -/
theorem accessors_fixed (h : Handler) (op : Op) :
    ((h.run op).2).container_name = h.container_name ∧
    ((h.run op).2).type = h.type := by
  by_cases hd : h.destroyed
  · cases op <;>
      simp [Handler.run, Handler.Update, Handler.Stats, Handler.Spec,
        Handler.Create, Handler.Destroy, Handler.Enter,
        Handler.RegisterNotification, hd]
  · cases op with
    | update s policy =>
        cases policy <;> simp [Handler.run, Handler.Update, hd]
    | stats stype output => simp [Handler.run, hd]
    | spec output => simp [Handler.run, hd]
    | create s => simp [Handler.run, Handler.Create, hd]
    | destroy backendOk =>
        cases backendOk <;> simp [Handler.run, Handler.Destroy, hd]
    | enter tids => simp [Handler.run, Handler.Enter, hd]
    | register es =>
        rcases hk : es.kinds.dedup with _ | ⟨a, rest⟩
        · simp [Handler.run, Handler.RegisterNotification, hd, hk]
        · cases rest with
          | nil =>
              by_cases hs : h.serviceable a <;>
                simp [Handler.run, Handler.RegisterNotification, hd, hk, hs]
          | cons b rest2 =>
              simp [Handler.run, Handler.RegisterNotification, hd, hk]

/-! Helper lemmas about the configured-state table and the `Enter` loop. -/

/-- A name missing from the configured table is not among its keys. -/
theorem lookupState_eq_none_not_mem (l : List (String × (Nat → Nat)))
    (name : String) (hl : lookupState l name = none) :
    name ∉ l.map Prod.fst := by
  induction l with
  | nil => simp
  | cons p rest ih =>
      obtain ⟨n, st⟩ := p
      by_cases hn : n = name
      · simp [lookupState, hn] at hl
      · have hl2 : lookupState rest name = none := by
          simpa [lookupState, hn] using hl
        simp only [List.map_cons, List.mem_cons, not_or]
        exact ⟨fun h => hn h.symm, ih hl2⟩

/-- Appending configured state for a fresh name makes it found by lookup. -/
theorem lookupState_append_self (l : List (String × (Nat → Nat)))
    (name : String) (st : Nat → Nat) (hl : lookupState l name = none) :
    lookupState (l ++ [(name, st)]) name = some st := by
  induction l with
  | nil => simp [lookupState]
  | cons p rest ih =>
      obtain ⟨n, st2⟩ := p
      by_cases hn : n = name
      · simp [lookupState, hn] at hl
      · have hl2 : lookupState rest name = none := by
          simpa [lookupState, hn] using hl
        simp [lookupState, hn, ih hl2]

/-- Moving a batch of ids whose backend moves all succeed appends them to
the already moved ids and continues with the remainder of the list. -/
theorem enterMove_ok_append (mres : Int → Option ErrorCode) (ts1 : List Int)
    (hok : ∀ x ∈ ts1, mres x = none) :
    ∀ acc rest, enterMove mres acc (ts1 ++ rest)
      = enterMove mres (acc ++ ts1) rest := by
  induction ts1 with
  | nil => intro acc rest; simp
  | cons t ts ih =>
      intro acc rest
      have ht : mres t = none := hok t (by simp)
      have hok2 : ∀ x ∈ ts, mres x = none := fun x hx => hok x (by simp [hx])
      simp only [List.cons_append, enterMove, ht]
      rw [show ts.append rest = ts ++ rest from rfl, ih hok2]
      simp

/-- C5: for every factory, if a live handler already exists for the pair
(container, this factory's resource type) — i.e. the factory already has
configured state for that container name — then `Create` fails
`ALREADY_EXISTS` and changes nothing; moreover `Create` (for any name)
preserves uniqueness of the configured container names, so at most one
live handler exists per (container, resource type) pair. -/
theorem create_already_exists (F : Factory) (name n2 : String)
    (s s2 : ContainerSpec)
    (hex : (lookupState F.configured name).isSome = true) :
    (F.Create name s).1 = Except.error ErrorCode.ALREADY_EXISTS ∧
    (F.Create name s).2 = F ∧
    ((F.configured.map Prod.fst).Nodup →
      (((F.Create n2 s2).2).configured.map Prod.fst).Nodup) := by
  obtain ⟨st, hst⟩ := Option.isSome_iff_exists.mp hex
  refine ⟨by simp [Factory.Create, hst], by simp [Factory.Create, hst], ?_⟩
  intro hnd
  cases hl2 : lookupState F.configured n2 with
  | some st2 => simpa [Factory.Create, hl2] using hnd
  | none =>
      have hnm := lookupState_eq_none_not_mem F.configured n2 hl2
      simp [Factory.Create, hl2, List.nodup_append, hnd, List.disjoint_left]
      intro a ha
      exact hnm (List.mem_map_of_mem Prod.fst ha)

/-- Witness for C5: the sample factory already has state for
`/batch/job1`, so creating it again fails `ALREADY_EXISTS` without
touching the factory, and uniqueness of names is preserved by a `Create`
of a fresh name. -/
theorem create_already_exists_witness :
    (lookupState sampleFactory.configured "/batch/job1").isSome = true ∧
    ((sampleFactory.Create "/batch/job1" sampleSpec).1
        = Except.error ErrorCode.ALREADY_EXISTS ∧
      (sampleFactory.Create "/batch/job1" sampleSpec).2 = sampleFactory ∧
      ((sampleFactory.configured.map Prod.fst).Nodup →
        (((sampleFactory.Create "/batch/job2" sampleSpec).2).configured.map
            Prod.fst).Nodup)) :=
  ⟨by simp [sampleFactory, lookupState],
    create_already_exists sampleFactory "/batch/job1" "/batch/job2"
      sampleSpec sampleSpec (by simp [sampleFactory, lookupState])⟩

/-- C6: for every handler and every list of thread ids whose prefix moves
succeed and whose next id fails, `Enter` is not atomic: it returns the
first error encountered and the ids already moved remain moved — the
moved set afterwards is the prior moved set plus exactly the successful
prefix, with no rollback. -/
theorem enter_no_rollback (h : Handler) (ts1 ts2 : List Int) (t : Int)
    (e : ErrorCode) (hd : h.destroyed = false)
    (hok : ∀ x ∈ ts1, h.moveResult x = none)
    (hfail : h.moveResult t = some e) :
    (h.Enter (ts1 ++ t :: ts2)).1 = Except.error e ∧
    (h.Enter (ts1 ++ t :: ts2)).2.moved = h.moved ++ ts1 := by
  have key : enterMove h.moveResult h.moved (ts1 ++ t :: ts2)
      = (Except.error e, h.moved ++ ts1) := by
    rw [enterMove_ok_append h.moveResult ts1 hok h.moved (t :: ts2)]
    simp [enterMove, hfail]
  simp [Handler.Enter, hd, key]

/-- Witness for C6: entering `[1, 2, 5, 7]` on the sample handler, whose
backend refuses thread id 5, moves 1 and 2, keeps them moved, and returns
the error for 5. -/
theorem enter_no_rollback_witness :
    sampleHandler.destroyed = false ∧
    (∀ x ∈ ([1, 2] : List Int), sampleHandler.moveResult x = none) ∧
    sampleHandler.moveResult 5 = some ErrorCode.NOT_FOUND ∧
    ((sampleHandler.Enter ([1, 2] ++ 5 :: [7])).1
        = Except.error ErrorCode.NOT_FOUND ∧
      (sampleHandler.Enter ([1, 2] ++ 5 :: [7])).2.moved
        = sampleHandler.moved ++ [1, 2]) :=
  ⟨rfl, by decide, by decide,
    enter_no_rollback sampleHandler [1, 2] [7] 5 ErrorCode.NOT_FOUND rfl
      (by decide) (by decide)⟩

/-- C8: for every factory and fresh container name, if `Create` succeeds
then `Get` on that name also succeeds, and the handler it returns reports
the same `container_name()` and `type()` as the handler returned by
`Create`. -/
theorem get_after_create (F : Factory) (name : String) (s : ContainerSpec)
    (hnew : lookupState F.configured name = none) :
    (∃ hc, (F.Create name s).1 = Except.ok hc) ∧
    ((F.Create name s).2.Get name).map (fun h => (h.container_name, h.type))
      = (F.Create name s).1.map (fun h => (h.container_name, h.type)) := by
  constructor
  · exact ⟨F.mkHandler name (fun f => (s F.type f).getD (F.defaults f)),
      by simp [Factory.Create, hnew]⟩
  · simp [Factory.Create, Factory.Get, Factory.mkHandler, hnew,
      lookupState_append_self F.configured name _ hnew, Except.map]

/-- Witness for C8: creating `/batch/job2` on the sample factory and then
getting it yields a handler reporting the same name and type. -/
theorem get_after_create_witness :
    lookupState sampleFactory.configured "/batch/job2" = none ∧
    ((∃ hc, (sampleFactory.Create "/batch/job2" sampleSpec).1
        = Except.ok hc) ∧
      ((sampleFactory.Create "/batch/job2" sampleSpec).2.Get
          "/batch/job2").map (fun h => (h.container_name, h.type))
        = (sampleFactory.Create "/batch/job2" sampleSpec).1.map
            (fun h => (h.container_name, h.type))) :=
  ⟨by simp [sampleFactory, lookupState],
    get_after_create sampleFactory "/batch/job2" sampleSpec
      (by simp [sampleFactory, lookupState])⟩

end Lmctfy
